import Mathlib

/-!
# Verification of the sk-pkg/notify Lark dispatcher

Shallow embedding of the Lark notification dispatcher (package `lark`,
together with the `cache` and `util` packages it depends on) and proofs
about its behaviour.

Conventions of the embedding:
* Go machine integers are modelled as `Int` (no overflow is reachable at the
  values the code manipulates, except inside `strconv.Atoi`, whose range
  check is modelled explicitly).
* Wall-clock instants (`time.Now().UnixNano()`) are explicit `Int`
  parameters, in nanoseconds.
* The HTTP transport (`resty`) is modelled as a function from the attempt
  index to the outcome of that attempt; a JSON response body is modelled by
  the fields the code's response structs can read from it.
* Go maps used as configuration (name → webhook URL, name → app) are
  modelled as association lists searched with `List.find?`; only the
  first binding for a key is visible, matching map-lookup semantics for the
  duplicate-free lists the code builds.
-/

namespace Notify

/-! ## JSON response bodies

`appTokenResp` and `messageResp` (lark.go) are decoded from response
bodies with `json.Unmarshal`.  A body is modelled either as a JSON object
carrying the four fields those structs can read (absent fields decode to
zero values) or as malformed JSON, on which `Unmarshal` errors. -/

/-- The fields of `messageResp` (lark.go): `code` and `msg`. -/
structure MessageResp where
  code : Int
  msg : String
deriving DecidableEq, Repr

/-- The fields of `appTokenResp` (lark.go): `code`, `msg`,
`app_access_token` and `expire`. -/
structure AppTokenResp where
  code : Int
  msg : String
  appAccessToken : String
  expire : Int
deriving DecidableEq, Repr

/-- A response body as seen by the two `json.Unmarshal` call sites. -/
inductive Body
  | fields (code : Int) (msg : String) (appAccessToken : String) (expire : Int)
  | malformed
deriving DecidableEq, Repr

/-- `json.Unmarshal(body, &rs)` for `rs : messageResp`. -/
def parseMessageResp : Body → Except String MessageResp
  | .fields c m _ _ => .ok ⟨c, m⟩
  | .malformed => .error "invalid JSON"

/-- `json.Unmarshal(body, &rs)` for `rs : appTokenResp`. -/
def parseAppTokenResp : Body → Except String AppTokenResp
  | .fields c m t e => .ok ⟨c, m, t, e⟩
  | .malformed => .error "invalid JSON"

/-! ## request.go: Response, extractResetTime, sendLarkAPIRequest -/

/-- `Response` (request.go): status code, body and header multimap. -/
structure Response where
  statusCode : Int
  body : Body
  headers : List (String × List String)
deriving DecidableEq, Repr

/-- Indexing the header multimap: a missing key yields the nil slice. -/
def headerValues (hs : List (String × List String)) (k : String) : List String :=
  match hs.find? (fun p => p.1 == k) with
  | some p => p.2
  | none => []

/-- `strconv.Atoi`: optional sign, then a non-empty run of decimal digits;
values outside the 64-bit signed range are an error (Go returns
`ErrRange`; the caller only inspects `err != nil`, so the clamped value is
irrelevant). -/
def goAtoi (s : String) : Option Int :=
  match s.data with
  | [] => none
  | c :: rest =>
    let signed : Bool × List Char :=
      if c = '-' then (true, rest)
      else if c = '+' then (false, rest)
      else (false, c :: rest)
    if signed.2 = [] then none
    else if signed.2.all Char.isDigit then
      let n : Nat := signed.2.foldl (fun a d => 10 * a + (d.toNat - 48)) 0
      let v : Int := if signed.1 then -(n : Int) else (n : Int)
      if v < -(2 ^ 63) ∨ 2 ^ 63 - 1 < v then none else some v
    else none

/-- `extractResetTime` (request.go): parse the first value of the
rate-limit-reset header, defaulting to 60 seconds when the header is
missing or does not parse. -/
def extractResetTime (resetHeaders : List String) : Int :=
  match resetHeaders with
  | [] => 60
  | h :: _ =>
    match goAtoi h with
    | none => 60
    | some v => v

/-- Outcome of one `executeRequest` call: either the transport itself
fails (connection error) or a response arrives. -/
inductive AttemptOutcome
  | fail (e : String)
  | resp (r : Response)
deriving Repr

/-- Errors `sendLarkAPIRequest` can itself produce. -/
inductive LarkErr
  | transport (e : String)
  | rateLimitExceeded (maxRetries : Nat)
  | exhausted (maxRetries : Nat)
deriving DecidableEq, Repr

/-- Observable behaviour of one `sendLarkAPIRequest` call: how many
requests were attempted, which `time.Sleep` durations (in seconds) were
performed, and the final result. -/
structure ExecTrace where
  attempts : Nat
  sleeps : List Int
  result : Except LarkErr Response
deriving Repr

/-- The retry loop of `sendLarkAPIRequest` (request.go).  `retry` is the
loop counter; `fuel` is the number of loop iterations still permitted by
the loop condition `retry <= maxRetries` (`maxRetries + 1 - retry` at
entry), so the `fuel = 0` case is the dead fall-through after the loop. -/
def sendAttempts (transport : Nat → AttemptOutcome) (maxRetries : Nat) :
    Nat → Nat → ExecTrace
  | _, 0 => ⟨0, [], .error (.exhausted maxRetries)⟩
  | retry, fuel + 1 =>
    match transport retry with
    | .fail e => ⟨1, [], .error (.transport e)⟩
    | .resp r =>
      if r.statusCode = 429 then
        if retry < maxRetries then
          let w := extractResetTime (headerValues r.headers "x-ogw-ratelimit-reset")
          let t := sendAttempts transport maxRetries (retry + 1) fuel
          ⟨t.attempts + 1, w :: t.sleeps, t.result⟩
        else
          ⟨1, [], .error (.rateLimitExceeded maxRetries)⟩
      else
        ⟨1, [], .ok r⟩

/-- Normalisation of the `maxRetries` parameter: `maxRetries <= 0`
defaults to 3 (request.go). -/
def normRetries (maxRetries : Int) : Nat :=
  if maxRetries ≤ 0 then 3 else maxRetries.toNat

/-- `sendLarkAPIRequest` (request.go). -/
def sendLarkAPIRequest (transport : Nat → AttemptOutcome) (maxRetries : Int) : ExecTrace :=
  let mr := normRetries maxRetries
  sendAttempts transport mr 0 (mr + 1)

/-- An attempt outcome that is a response with HTTP status 429. -/
def is429 : AttemptOutcome → Bool
  | .fail _ => false
  | .resp r => r.statusCode == 429

/-! ## cache package: SetString / GetString -/

/-- A cache entry (`item` in the cache package): value and absolute
expiration instant in `UnixNano`, with 0 meaning "never expires". -/
structure CacheItem where
  value : String
  expiration : Int
deriving DecidableEq, Repr

/-- The `sync.Map` of the cache, as an association list; `Store`
replaces, `Load` finds, `Delete` removes. -/
abbrev Cache := List (String × CacheItem)

/-- `sync.Map.Store`: overwrite any existing entry for the key. -/
def storeItem (c : Cache) (k : String) (it : CacheItem) : Cache :=
  (k, it) :: c.filter (fun p => !(p.1 == k))

/-- `sync.Map.Load`. -/
def loadItem (c : Cache) (k : String) : Option CacheItem :=
  (c.find? (fun p => p.1 == k)).map (·.2)

/-- `sync.Map.Delete`. -/
def deleteItem (c : Cache) (k : String) : Cache :=
  c.filter (fun p => !(p.1 == k))

def nanosPerSecond : Int := 1000000000

/-- `cache.SetString` at instant `now` (UnixNano): a positive
`expiration` (seconds) is converted to an absolute `UnixNano` deadline,
any other value stores a never-expiring entry. -/
def setString (c : Cache) (now : Int) (key value : String) (expiration : Int) : Cache :=
  let exp : Int := if 0 < expiration then now + expiration * nanosPerSecond else 0
  storeItem c key ⟨value, exp⟩

/-- The two error values of the cache package. -/
inductive CacheErr
  | keyNotFound
  | keyExpired
deriving DecidableEq, Repr

/-- `cache.GetString` at instant `now` (UnixNano).  Returns the result
together with the cache after the call (an expired entry is deleted as a
side effect). -/
def getString (c : Cache) (now : Int) (key : String) : Except CacheErr String × Cache :=
  match loadItem c key with
  | none => (.error .keyNotFound, c)
  | some v =>
    if v.expiration ≠ 0 ∧ v.expiration < now then
      (.error .keyExpired, deleteItem c key)
    else
      (.ok v.value, c)

/-! ## template.go: the card content generator -/

/-- `levelColorMap` (template.go). -/
def levelColorMap : List (String × String) :=
  [("success", "green"), ("error", "red"), ("warn", "yellow")]

/-- The color looked up from `levelColorMap`, defaulting to `"blue"` when
the level is not recognised (template.go, `generateTextCardMsgWithLevel`). -/
def resolveLevelColor (level : String) : String :=
  match levelColorMap.find? (fun p => p.1 == level) with
  | some p => p.2
  | none => "blue"

/-- A broken-down wall-clock instant, as produced by `time.Now()` when
formatted with the layout `2006-01-02 15:04:05`. -/
structure GoTime where
  year : Nat
  month : Nat
  day : Nat
  hour : Nat
  minute : Nat
  second : Nat
deriving DecidableEq, Repr

/-- Two-digit zero-padded decimal (Go layout components `01`, `02`, `15`,
`04`, `05`); faithful for the in-range values (`n ≤ 99`) the clock
produces. -/
def pad2 (n : Nat) : String :=
  String.mk [Nat.digitChar (n / 10 % 10), Nat.digitChar (n % 10)]

/-- Four-digit zero-padded decimal (Go layout component `2006`); faithful
for years `0 ≤ y ≤ 9999`. -/
def pad4 (n : Nat) : String :=
  String.mk [Nat.digitChar (n / 1000 % 10), Nat.digitChar (n / 100 % 10),
    Nat.digitChar (n / 10 % 10), Nat.digitChar (n % 10)]

/-- `time.Now().Format("2006-01-02 15:04:05")` on a broken-down instant. -/
def formatDateTime (t : GoTime) : String :=
  pad4 t.year ++ "-" ++ pad2 t.month ++ "-" ++ pad2 t.day ++ " " ++
    pad2 t.hour ++ ":" ++ pad2 t.minute ++ ":" ++ pad2 t.second

/-- The strings of the shape `YYYY-MM-DD HH:MM:SS`. -/
def TimestampShape (s : String) : Prop :=
  ∃ y mo d h mi sec : String,
    s = y ++ "-" ++ mo ++ "-" ++ d ++ " " ++ h ++ ":" ++ mi ++ ":" ++ sec ∧
    y.length = 4 ∧ mo.length = 2 ∧ d.length = 2 ∧
    h.length = 2 ∧ mi.length = 2 ∧ sec.length = 2 ∧
    ∀ c ∈ (y ++ mo ++ d ++ h ++ mi ++ sec).data, c.isDigit = true

/-- The decoded card produced by `generateTextCardMsgWithLevel`
(template.go): the fixed template `defaultCardMsgTmpl` instantiated with
the four fields of `defaultCardMsgTmplData`.  The fixed structure around
the substituted strings is constant, so the card is represented by the
four substituted fields. -/
structure CardMsg where
  content : String
  time : String
  title : String
  levelColor : String
deriving DecidableEq, Repr

/-- A string whose literal substitution into a JSON string literal of
`defaultCardMsgTmpl` keeps the rendered template valid JSON and decodes
back to itself: no quote, no backslash, no control character
(`text/template` substitutes literally, without JSON escaping). -/
def jsonStringSafe (s : String) : Bool :=
  s.data.all (fun c => !(c == '"') && !(c == '\\') && 32 ≤ c.toNat)

/-- `generateTextCardMsgWithLevel` (template.go): render
`defaultCardMsgTmpl` with the level color, the title, the content and the
render-time timestamp, then `json.Unmarshal` the rendered text.  The
decode succeeds exactly when the substituted strings do not break the
JSON string literals they are spliced into. -/
def generateTextCardMsgWithLevel (level title content : String) (now : GoTime) :
    Except String CardMsg :=
  if jsonStringSafe title && jsonStringSafe content then
    .ok ⟨content, formatDateTime now, title, resolveLevelColor level⟩
  else
    .error "template output is not valid JSON"

/-! ## lark.go: Message and SubmitMessage -/

/-- The dynamic (`any`-typed) content payload of a `Message`.  Strings,
rendered cards and the non-string payloads admissible for the richer
message types are distinguished; `intVal` and `nilVal` stand for the
other values an `any` field admits. -/
inductive MsgContent
  | str (s : String)
  | card (c : CardMsg)
  | intVal (n : Int)
  | nilVal
deriving DecidableEq, Repr

/-- `Message` (lark.go). -/
structure Message where
  id : String
  sendChannelName : String
  sendTo : String
  msgType : String
  msgLevel : String
  title : String
  content : MsgContent
deriving DecidableEq, Repr

/-- `shouldGenerateCardMsg` (lark.go). -/
def shouldGenerateCardMsg (m : Message) : Bool :=
  !(m.msgLevel == "") && !(m.title == "") && (m.msgType == "" || m.msgType == "text")

/-- Result of `SubmitMessage`: the returned message ID, the returned
error, and the message pushed onto the `messages` channel (none when an
error prevented the enqueue). -/
structure SubmitResult where
  msgID : String
  err : Option String
  enqueued : Option Message
deriving DecidableEq, Repr

/-- `SubmitMessage` (lark.go).  `genID` is the identifier
`msgid.ID.New()` would produce for this call; `now` is the render-time
clock reading. -/
def submitMessage (genID : String) (now : GoTime) (m : Message) : SubmitResult :=
  let m := if m.id == "" then { m with id := genID } else m
  if shouldGenerateCardMsg m then
    match m.content with
    | .str content =>
      match generateTextCardMsgWithLevel m.msgLevel m.title content now with
      | .ok cardContent =>
        let m := { m with msgType := "interactive", content := .card cardContent }
        ⟨m.id, none, some m⟩
      | .error e => ⟨m.id, some ("failed to generate card message: " ++ e), none⟩
    | _ => ⟨m.id, none, some m⟩
  else
    ⟨m.id, none, some m⟩

/-! ## lark.go: getToken -/

/-- `tokenCacheKey` (lark.go): `"lark:token:%s"` instantiated with the
app ID. -/
def tokenCacheKey (appID : String) : String := "lark:token:" ++ appID

/-- Observable behaviour of one `getToken` call: the returned token or
error, the cache after the call, and whether the token-issuance endpoint
was called at all. -/
structure GetTokenResult where
  result : Except String String
  cache : Cache
  endpointCalled : Bool
deriving Repr

/-- The issuance half of `getToken` (lark.go), reached on a cache miss:
POST `{app_id, app_secret}` to the token API (via `sendLarkAPIRequest`
with `maxRetries = 3`, abstracted by `transport`), decode `appTokenResp`,
fail on a non-zero platform code, otherwise cache the token with TTL
`expire - 100` seconds and return it. -/
def getTokenIssue (c : Cache) (now : Int) (transport : Nat → AttemptOutcome)
    (appID : String) : GetTokenResult :=
  match (sendLarkAPIRequest transport 3).result with
  | .error _ => ⟨.error "failed to request Lark App Token", c, true⟩
  | .ok resp =>
    match parseAppTokenResp resp.body with
    | .error e => ⟨.error ("failed to parse token response: " ++ e), c, true⟩
    | .ok rs =>
      if rs.code ≠ 0 then
        ⟨.error ("failed to obtain Lark App Token: " ++ rs.msg), c, true⟩
      else
        ⟨.ok rs.appAccessToken,
          setString c now (tokenCacheKey appID) rs.appAccessToken (rs.expire - 100),
          true⟩

/-- `getToken` (lark.go): return the cached token when the cache read
succeeds with a non-empty value, otherwise go through issuance.  The
deletion `GetString` performs on an expired entry is kept (it is
immediately overwritten on successful issuance). -/
def getToken (c : Cache) (now : Int) (transport : Nat → AttemptOutcome)
    (appID : String) : GetTokenResult :=
  let g := getString c now (tokenCacheKey appID)
  match g.1 with
  | .ok token =>
    if token ≠ "" then ⟨.ok token, g.2, false⟩
    else getTokenIssue g.2 now transport appID
  | .error _ => getTokenIssue g.2 now transport appID

/-! ## lark_bot.go: sendBotWebhookMessage -/

/-- The `content` field of the webhook payload, keyed by message type. -/
inductive BotContent
  | text (s : String)
  | post (c : MsgContent)
  | shareChat (s : String)
  | image (s : String)
deriving DecidableEq, Repr

/-- The webhook payload `params`: always a `msg_type` field; a `content`
field for the four content-bearing types; a `card` field (the marshalled
card JSON) for `interactive`; nothing else for any other type. -/
structure BotParams where
  msgType : String
  content : Option BotContent
  card : Option MsgContent
deriving DecidableEq, Repr

/-- The type assertion `m.Content.(string)`; a non-string payload makes
the assertion panic. -/
def asString : MsgContent → Except String String
  | .str s => .ok s
  | _ => .error "interface conversion: interface is not string"

/-- The payload-construction switch of `sendBotWebhookMessage`
(lark_bot.go).  A message type outside the five handled cases falls
through the switch and leaves `params` with only the `msg_type` key. -/
def buildBotParams (m : Message) : Except String BotParams :=
  match m.msgType with
  | "text" => (asString m.content).map (fun s => ⟨m.msgType, some (.text s), none⟩)
  | "post" => .ok ⟨m.msgType, some (.post m.content), none⟩
  | "share_chat" => (asString m.content).map (fun s => ⟨m.msgType, some (.shareChat s), none⟩)
  | "image" => (asString m.content).map (fun s => ⟨m.msgType, some (.image s), none⟩)
  | "interactive" => .ok ⟨m.msgType, none, some m.content⟩
  | _ => .ok ⟨m.msgType, none, none⟩

/-- Observable behaviour of one webhook or app send: the request POSTed
(URL and payload; `none` when the send was never attempted) and the
outcome. -/
structure BotSendTrace where
  request : Option (String × BotParams)
  outcome : Except String Unit
deriving Repr

/-- `sendBotWebhookMessage` (lark_bot.go): build the payload, POST it to
the webhook via `sendLarkAPIRequest` with `maxRetries = 3`, decode
`messageResp`, succeed exactly when the business code is 0. -/
def sendBotWebhookMessage (transport : Nat → AttemptOutcome) (webhook : String)
    (m : Message) : BotSendTrace :=
  match buildBotParams m with
  | .error e => ⟨none, .error e⟩
  | .ok params =>
    match (sendLarkAPIRequest transport 3).result with
    | .error _ => ⟨some (webhook, params), .error "failed to send bot message"⟩
    | .ok resp =>
      match parseMessageResp resp.body with
      | .error _ => ⟨some (webhook, params), .error "failed to parse response"⟩
      | .ok rs =>
        if rs.code ≠ 0 then
          ⟨some (webhook, params), .error ("failed to send bot message: " ++ rs.msg)⟩
        else
          ⟨some (webhook, params), .ok ()⟩

/-! ## template_card.go: sendLarkAppMessage -/

/-- The marshalled `content` string of an app-message payload, keyed by
message type. -/
inductive AppContent
  | text (s : String)
  | imageKey (s : String)
  | fileKey (s : String)
  | chatId (s : String)
  | userId (s : String)
  | raw (c : MsgContent)
deriving DecidableEq, Repr

/-- The app-message payload: `receive_id`, `msg_type` and the marshalled
content. -/
structure AppParams where
  receiveId : String
  msgType : String
  content : AppContent
deriving DecidableEq, Repr

/-- The payload-construction switch of `sendLarkAppMessage`
(template_card.go); the `default` branch fails with
"invalid message type". -/
def buildAppContent (m : Message) : Except String AppContent :=
  match m.msgType with
  | "text" => (asString m.content).map .text
  | "image" => (asString m.content).map .imageKey
  | "audio" => (asString m.content).map .fileKey
  | "file" => (asString m.content).map .fileKey
  | "media" => (asString m.content).map .fileKey
  | "sticker" => (asString m.content).map .fileKey
  | "share_chat" => (asString m.content).map .chatId
  | "share_user" => (asString m.content).map .userId
  | "post" => .ok (.raw m.content)
  | "interactive" => .ok (.raw m.content)
  | "system" => .ok (.raw m.content)
  | other => .error ("invalid message type: " ++ other)

/-- Observable behaviour of `sendLarkAppMessage`. -/
structure AppSendTrace where
  request : Option (String × AppParams)
  outcome : Except String Unit
deriving Repr

/-- `sendLarkAppMessage` (template_card.go): build the payload, POST it
with bearer authentication via `sendLarkAPIRequest` with
`maxRetries = 3`, decode `messageResp`, succeed exactly when the business
code is 0. -/
def sendLarkAppMessage (transport : Nat → AttemptOutcome) (msgAPI : String)
    (m : Message) : AppSendTrace :=
  match buildAppContent m with
  | .error e => ⟨none, .error e⟩
  | .ok content =>
    let params : AppParams := ⟨m.sendTo, m.msgType, content⟩
    match (sendLarkAPIRequest transport 3).result with
    | .error _ => ⟨some (msgAPI, params), .error "failed to send app message"⟩
    | .ok resp =>
      match parseMessageResp resp.body with
      | .error _ => ⟨some (msgAPI, params), .error "failed to parse response"⟩
      | .ok rs =>
        if rs.code ≠ 0 then ⟨some (msgAPI, params), .error rs.msg⟩
        else ⟨some (msgAPI, params), .ok ()⟩

/-! ## lark.go: configuration, validateConfig, New, sendMsg -/

def feishuHost : String := "https://open.feishu.cn"

def larkHost : String := "https://open.larksuite.com"

def appAccessTokenAPI : String := "/open-apis/auth/v3/app_access_token/internal/"

def messageAPI : String := "/open-apis/im/v1/messages"

/-- `util.SpliceStr`: concatenation of the argument strings. -/
def spliceStr (ps : List String) : String := ps.foldl (· ++ ·) ""

/-- `Lark` (lark.go): per-app configuration.  The optional user-supplied
`Token` closure is modelled by the outcome it would produce. -/
structure LarkCfg where
  appType : String
  token : Option (Except String String)
  appID : String
  appSecret : String

/-- `Config` (lark.go). -/
structure Config where
  enabled : Bool
  defaultSendChannelName : String
  channelSize : Nat
  poolSize : Nat
  botWebhooks : List (String × String)
  larks : List (String × LarkCfg)

/-- The per-app condition rejected by `validateConfig`'s `switch` (the
three `fallthrough` cases all reach the same `return`). -/
def larkCfgInvalid (l : LarkCfg) : Bool :=
  (l.token.isNone && l.appID == "" && l.appSecret == "") ||
  (!(l.appID == "") && l.appSecret == "") ||
  (l.appID == "" && !(l.appSecret == ""))

/-- `validateConfig` (lark.go).  `gomaxprocs` stands for
`runtime.GOMAXPROCS(0)`.  The per-app check only runs when no webhook is
configured and at least one app is. -/
def validateConfig (gomaxprocs : Nat) (config : Config) : Except String Config :=
  if config.botWebhooks.length = 0 ∧ config.larks.length = 0 then
    .error "There are no available sending channels for lark"
  else if config.defaultSendChannelName = "" then
    .error "DefaultLarkSendChannelName is required"
  else if config.botWebhooks.length = 0 ∧ config.larks.any (fun p => larkCfgInvalid p.2) then
    .error "lark config error"
  else
    .ok { config with
      channelSize := if config.channelSize = 0 then 10 * gomaxprocs else config.channelSize,
      poolSize := if config.poolSize = 0 then 10 * gomaxprocs else config.poolSize }

/-- How an `app`'s `token` closure was built by `New`: either the
user-supplied function (modelled by its outcome) or the built-in
`getToken` closure over the app credentials. -/
inductive TokenSrc
  | custom (result : Except String String)
  | builtin (appID appSecret appTokenAPI : String)

/-- `app` (lark.go). -/
structure App where
  tokenSrc : TokenSrc
  msgAPI : String

/-- The per-app initialisation loop of `New` (lark.go): resolve the API
hosts from the app type, reject an unknown type, and reject missing
credentials when no token closure was supplied. -/
def initApps : List (String × LarkCfg) → Except String (List (String × App))
  | [] => .ok []
  | (name, l) :: rest => do
    let hosts ←
      match l.appType with
      | "feishu" => .ok (spliceStr [feishuHost, messageAPI], spliceStr [feishuHost, appAccessTokenAPI])
      | "lark" => .ok (spliceStr [larkHost, messageAPI], spliceStr [larkHost, appAccessTokenAPI])
      | other => .error ("invalid lark app type: " ++ other)
    let src ←
      match l.token with
      | some r => .ok (TokenSrc.custom r)
      | none =>
        if l.appID = "" ∨ l.appSecret = "" then
          .error ("lark config error: " ++ name)
        else
          .ok (TokenSrc.builtin l.appID l.appSecret hosts.2)
    let tail ← initApps rest
    .ok ((name, ⟨src, hosts.1⟩) :: tail)

/-- The notifier state built by `New` (lark.go) that routing depends on. -/
structure NotifyState where
  defaultSendChannelName : String
  botWebhooks : List (String × String)
  apps : List (String × App)

/-- `New` (lark.go): validate the configuration, then build the app
table; either failure is returned to the caller and no notifier is
produced. -/
def new (gomaxprocs : Nat) (config : Config) : Except String NotifyState := do
  let config ← validateConfig gomaxprocs config
  let apps ← initApps config.larks
  .ok ⟨config.defaultSendChannelName, config.botWebhooks, apps⟩

/-- Go map lookup on the association lists of `NotifyState`. -/
def lookup {α : Type} (xs : List (String × α)) (k : String) : Option α :=
  (xs.find? (fun p => p.1 == k)).map (·.2)

/-- `a.token()` for an app built by `New`: a user-supplied closure is
invoked directly (no caching, no endpoint call of its own); the built-in
closure runs `getToken`. -/
def evalToken (src : TokenSrc) (c : Cache) (now : Int)
    (transport : Nat → AttemptOutcome) : Except String String × Cache × Bool :=
  match src with
  | .custom r => (r, c, false)
  | .builtin appID _ _ =>
    let r := getToken c now transport appID
    (r.result, r.cache, r.endpointCalled)

/-- Observable behaviour of one `sendMsg` dispatch: the outcome, how many
times `a.token()` was invoked, and the webhook/app requests POSTed. -/
structure DispatchTrace where
  outcome : Except String Unit
  tokenCalls : Nat
  webhookRequest : Option (String × BotParams)
  appRequest : Option (String × AppParams)
deriving Repr

/-- The channel-resolution step at the top of `sendMsg` (lark.go): the
message's channel name, or the configured default when empty. -/
def resolveChannel (st : NotifyState) (m : Message) : String :=
  if m.sendChannelName == "" then st.defaultSendChannelName else m.sendChannelName

/-- `sendMsg` (lark.go): resolve the channel name (default when empty),
try the webhook table first, then the app table; an app send requires a
non-empty recipient, checked before the token is resolved; an unknown
channel is an error.  `tokTransport` abstracts the token-issuance
endpoint and `sendTransport` the message-send endpoint. -/
def sendMsg (st : NotifyState) (c : Cache) (now : Int)
    (tokTransport sendTransport : Nat → AttemptOutcome) (m : Message) : DispatchTrace :=
  let channel := resolveChannel st m
  match lookup st.botWebhooks channel with
  | some webhook =>
    let tr := sendBotWebhookMessage sendTransport webhook m
    ⟨tr.outcome, 0, tr.request, none⟩
  | none =>
    match lookup st.apps channel with
    | some a =>
      if m.sendTo == "" then
        ⟨.error ("sendTo is required for lark app " ++ channel), 0, none, none⟩
      else
        match evalToken a.tokenSrc c now tokTransport with
        | (.error _, _, _) =>
          ⟨.error ("failed to get token for lark app " ++ channel), 1, none, none⟩
        | (.ok _, _, _) =>
          let tr := sendLarkAppMessage sendTransport a.msgAPI m
          ⟨tr.outcome, 1, none, tr.request⟩
    | none =>
      ⟨.error ("channel " ++ channel ++ " is not found in lark"), 0, none, none⟩

/-! ## Lemmas about the retry loop -/

/-- On a transport that rate-limits every attempt, the loop runs its fuel
out: one attempt per remaining iteration, one sleep per iteration except
the last, and the rate-limit-exceeded error. -/
theorem sendAttempts_always429 (transport : Nat → AttemptOutcome) (mr : Nat)
    (h : ∀ k, is429 (transport k) = true) :
    ∀ fuel retry, retry + fuel = mr + 1 → 1 ≤ fuel →
      (sendAttempts transport mr retry fuel).attempts = fuel ∧
      (sendAttempts transport mr retry fuel).result = .error (.rateLimitExceeded mr) ∧
      (sendAttempts transport mr retry fuel).sleeps.length = fuel - 1 := by
  intro fuel
  induction fuel with
  | zero => intro retry _ hfuel; omega
  | succ f ih =>
    intro retry hsum _
    have h429 := h retry
    cases htr : transport retry with
    | fail e => rw [htr] at h429; simp [is429] at h429
    | resp r =>
      rw [htr] at h429
      have hst : r.statusCode = 429 := by simpa [is429] using h429
      by_cases hlt : retry < mr
      · have hf : 1 ≤ f := by omega
        obtain ⟨ha, hr, hs⟩ := ih (retry + 1) (by omega) hf
        simp only [sendAttempts, htr, if_pos hst, if_pos hlt]
        refine ⟨by simpa using ha, by simpa using hr, ?_⟩
        simp only [List.length_cons, hs]
        omega
      · have hf0 : f = 0 := by omega
        subst hf0
        simp [sendAttempts, htr, if_pos hst, hlt]

/-- `sendLarkAPIRequest` against a server that answers 429 on every
attempt: with `maxRetries = 3` exactly 4 attempts are made before the
rate-limit-exceeded error, and in general the attempt count is the
(normalised) retry bound plus one. -/
theorem sendLarkAPIRequest_always429 (transport : Nat → AttemptOutcome)
    (h : ∀ k, is429 (transport k) = true) :
    (sendLarkAPIRequest transport 3).attempts = 4 ∧
    (sendLarkAPIRequest transport 3).result = .error (.rateLimitExceeded 3) ∧
    (∀ maxRetries : Int,
      (sendLarkAPIRequest transport maxRetries).attempts = normRetries maxRetries + 1 ∧
      (sendLarkAPIRequest transport maxRetries).result =
        .error (.rateLimitExceeded (normRetries maxRetries))) ∧
    ∀ maxRetries : Int, 1 ≤ maxRetries →
      (sendLarkAPIRequest transport maxRetries).attempts = maxRetries.toNat + 1 := by
  have key : ∀ maxRetries : Int,
      (sendLarkAPIRequest transport maxRetries).attempts = normRetries maxRetries + 1 ∧
      (sendLarkAPIRequest transport maxRetries).result =
        .error (.rateLimitExceeded (normRetries maxRetries)) := by
    intro maxRetries
    obtain ⟨ha, hr, _⟩ :=
      sendAttempts_always429 transport (normRetries maxRetries) h
        (normRetries maxRetries + 1) 0 (by omega) (by omega)
    exact ⟨ha, hr⟩
  have h3 : normRetries 3 = 3 := by decide
  refine ⟨?_, ?_, key, ?_⟩
  · rw [(key 3).1, h3]
  · rw [(key 3).2, h3]
  · intro maxRetries hmr
    have hn : normRetries maxRetries = maxRetries.toNat := by
      unfold normRetries
      rw [if_neg (by omega)]
    rw [(key maxRetries).1, hn]

/-- On a transport answering one fixed 429 response every time, every
sleep of the loop lasts `extractResetTime` of that response's
rate-limit-reset header values. -/
theorem sendAttempts_const429_sleeps (transport : Nat → AttemptOutcome) (r : Response)
    (hT : ∀ k, transport k = .resp r) (hst : r.statusCode = 429) (mr : Nat) :
    ∀ fuel retry, retry + fuel = mr + 1 → 1 ≤ fuel →
      (sendAttempts transport mr retry fuel).sleeps =
        List.replicate (fuel - 1)
          (extractResetTime (headerValues r.headers "x-ogw-ratelimit-reset")) := by
  intro fuel
  induction fuel with
  | zero => intro retry _ hfuel; omega
  | succ f ih =>
    intro retry hsum _
    by_cases hlt : retry < mr
    · have hf : 1 ≤ f := by omega
      have hs := ih (retry + 1) (by omega) hf
      simp only [sendAttempts, hT retry, if_pos hst, if_pos hlt, hs]
      have hrep : List.replicate f
          (extractResetTime (headerValues r.headers "x-ogw-ratelimit-reset")) =
          extractResetTime (headerValues r.headers "x-ogw-ratelimit-reset") ::
            List.replicate (f - 1)
              (extractResetTime (headerValues r.headers "x-ogw-ratelimit-reset")) := by
        conv_lhs => rw [show f = (f - 1) + 1 by omega]
        rw [List.replicate_succ]
      simp [hrep]
    · have hf0 : f = 0 := by omega
      subst hf0
      simp [sendAttempts, hT retry, if_pos hst, hlt]

/-- The wait between rate-limited attempts: the parsed header value when
it parses, 60 seconds otherwise — shown on the whole loop with
`maxRetries = 3` and on the header values of the specification. -/
theorem sendLarkAPIRequest_sleep_durations (transport : Nat → AttemptOutcome)
    (r : Response) (hT : ∀ k, transport k = .resp r) (hst : r.statusCode = 429) :
    (sendLarkAPIRequest transport 3).sleeps =
      List.replicate 3
        (extractResetTime (headerValues r.headers "x-ogw-ratelimit-reset")) ∧
    extractResetTime ["5"] = 5 ∧
    extractResetTime [] = 60 ∧
    extractResetTime ["not-a-number"] = 60 ∧
    extractResetTime [""] = 60 ∧
    (∀ (v : String) (rest : List String) (n : Int),
      goAtoi v = some n → extractResetTime (v :: rest) = n) ∧
    (∀ (v : String) (rest : List String),
      goAtoi v = none → extractResetTime (v :: rest) = 60) := by
  refine ⟨?_, by decide, by decide, by decide, by decide,
    fun v rest n hn => by simp [extractResetTime, hn],
    fun v rest hn => by simp [extractResetTime, hn]⟩
  have h3 : normRetries 3 = 3 := by decide
  have := sendAttempts_const429_sleeps transport r hT hst (normRetries 3)
    (normRetries 3 + 1) 0 (by omega) (by omega)
  unfold sendLarkAPIRequest
  rw [this, h3]

/-- A transport failure on the attempt after `k` rate-limited ones ends
the loop at once: `k + 1` attempts, only the `k` sleeps already taken,
and the transport error. -/
theorem sendAttempts_transport_fail (transport : Nat → AttemptOutcome) (mr : Nat)
    (e : String) :
    ∀ k fuel retry, retry + fuel = mr + 1 → retry + k ≤ mr →
      (∀ j, j < k → is429 (transport (retry + j)) = true) →
      transport (retry + k) = .fail e →
      (sendAttempts transport mr retry fuel).attempts = k + 1 ∧
      (sendAttempts transport mr retry fuel).sleeps.length = k ∧
      (sendAttempts transport mr retry fuel).result = .error (.transport e) := by
  intro k
  induction k with
  | zero =>
    intro fuel retry hsum hk _ hfail
    rw [Nat.add_zero] at hfail
    have hf : 1 ≤ fuel := by omega
    obtain ⟨f, rfl⟩ : ∃ f, fuel = f + 1 := ⟨fuel - 1, by omega⟩
    simp [sendAttempts, hfail]
  | succ k ih =>
    intro fuel retry hsum hk h429 hfail
    have h0 := h429 0 (by omega)
    rw [Nat.add_zero] at h0
    cases htr : transport retry with
    | fail e' => rw [htr] at h0; simp [is429] at h0
    | resp r =>
      rw [htr] at h0
      have hst : r.statusCode = 429 := by simpa [is429] using h0
      have hlt : retry < mr := by omega
      obtain ⟨f, rfl⟩ : ∃ f, fuel = f + 1 := ⟨fuel - 1, by omega⟩
      have h429' : ∀ j, j < k → is429 (transport (retry + 1 + j)) = true := by
        intro j hj
        have hidx : retry + 1 + j = retry + (j + 1) := by omega
        rw [hidx]
        exact h429 (j + 1) (by omega)
      have hfail' : transport (retry + 1 + k) = .fail e := by
        have hidx : retry + 1 + k = retry + (k + 1) := by omega
        rw [hidx]; exact hfail
      obtain ⟨ha, hs, hr⟩ := ih f (retry + 1) (by omega) (by omega) h429' hfail'
      simp only [sendAttempts, htr, if_pos hst, if_pos hlt]
      exact ⟨by simpa using ha, by simp [hs], by simpa using hr⟩

/-- A connection-level failure of the underlying transport ends
`sendLarkAPIRequest` immediately on the attempt where it happens: no
retry and no further sleep follow, however many retries remain. -/
theorem sendLarkAPIRequest_transport_failure (transport : Nat → AttemptOutcome)
    (maxRetries : Int) (e : String) (k : Nat)
    (h429 : ∀ j, j < k → is429 (transport j) = true)
    (hfail : transport k = .fail e)
    (hk : k ≤ normRetries maxRetries) :
    (sendLarkAPIRequest transport maxRetries).result = .error (.transport e) ∧
    (sendLarkAPIRequest transport maxRetries).attempts = k + 1 ∧
    (sendLarkAPIRequest transport maxRetries).sleeps.length = k := by
  obtain ⟨ha, hs, hr⟩ :=
    sendAttempts_transport_fail transport (normRetries maxRetries) e k
      (normRetries maxRetries + 1) 0 (by omega) (by omega)
      (by intro j hj; rw [Nat.zero_add]; exact h429 j hj)
      (by rw [Nat.zero_add]; exact hfail)
  exact ⟨hr, ha, hs⟩

/-! ## Lemmas about the cache -/

theorem loadItem_store (c : Cache) (k : String) (it : CacheItem) :
    loadItem (storeItem c k it) k = some it := by
  simp [loadItem, storeItem, List.find?]

theorem loadItem_delete (c : Cache) (k : String) :
    loadItem (deleteItem c k) k = none := by
  unfold loadItem deleteItem
  rw [List.find?_eq_none.mpr]
  · rfl
  · intro x hx
    have hmem := (List.mem_filter.mp hx).2
    simp only [Bool.not_eq_true'] at hmem
    simp [hmem]

theorem getString_notFound (c : Cache) (now : Int) (k : String)
    (h : loadItem c k = none) :
    getString c now k = (.error .keyNotFound, c) := by
  simp [getString, h]

/-- C5 (counterexample): `set(key, value, 1)` at instant 0 followed by
`get(key)` exactly one second later — a delay of at least `ttl` seconds —
still returns the value: the expiry comparison is strict
(`now > expiration`), so the claim's "after at least ttl seconds reports
expired" fails at the boundary instant. -/
theorem getString_expiry_boundary_cex :
    (getString (setString [] 0 "k" "v" 1) nanosPerSecond "k").1 = .ok "v" := by
  simp [getString, setString, loadItem_store, nanosPerSecond]

/-- C5 (amended): an entry set with `ttl = 0` never expires; an entry set
with `ttl ≥ 1` reports "expired" on a `get` strictly more than `ttl`
seconds after the `set`, is deleted as a side effect, and every
subsequent `get` on the key reports "not found"; a `get` on a key never
set reports "not found". -/
theorem cache_expiry_semantics (c : Cache) (now t : Int) (k v : String) (ttl : Int)
    (h0 : 0 ≤ now) :
    (getString (setString c now k v 0) t k).1 = .ok v ∧
    (1 ≤ ttl → now + ttl * nanosPerSecond < t →
      (getString (setString c now k v ttl) t k).1 = .error .keyExpired ∧
      ∀ t2 : Int,
        (getString (getString (setString c now k v ttl) t k).2 t2 k).1 =
          .error .keyNotFound) ∧
    (loadItem c k = none → (getString c t k).1 = .error .keyNotFound) := by
  refine ⟨?_, ?_, ?_⟩
  · simp [getString, setString, loadItem_store]
  · intro httl hlate
    have hpos : (0 : Int) < ttl := by omega
    have hexp : (0 : Int) < now + ttl * nanosPerSecond := by
      have : nanosPerSecond ≤ ttl * nanosPerSecond := by
        have := mul_le_mul_of_nonneg_right httl (by norm_num [nanosPerSecond] : (0 : Int) ≤ nanosPerSecond)
        simpa using this
      simp only [nanosPerSecond] at this ⊢
      omega
    constructor
    · simp only [getString, setString, if_pos hpos, loadItem_store]
      rw [if_pos ⟨by omega, hlate⟩]
    · intro t2
      simp only [getString, setString, if_pos hpos, loadItem_store]
      rw [if_pos ⟨by omega, hlate⟩]
      simp [loadItem_delete]
  · intro h
    simp [getString, h]

/-- Witness for `cache_expiry_semantics` at `now = 0`, `ttl = 1`,
`t` two seconds later. -/
theorem cache_expiry_semantics_witness :
    (getString (setString [] 0 "k" "v" 0) 7 "k").1 = .ok "v" ∧
    (getString (setString [] 0 "k" "v" 1) (2 * nanosPerSecond) "k").1 =
      .error .keyExpired ∧
    (getString (getString (setString [] 0 "k" "v" 1) (2 * nanosPerSecond) "k").2
      9 "k").1 = .error .keyNotFound := by
  have h1 := cache_expiry_semantics [] 0 7 "k" "v" 0 (by decide)
  have h2 := cache_expiry_semantics [] 0 (2 * nanosPerSecond) "k" "v" 1 (by decide)
  have h2' := h2.2.1 (by decide) (by norm_num [nanosPerSecond])
  exact ⟨h1.1, h2'.1, h2'.2 9⟩

/-! ## Lemmas about the token path -/

theorem getTokenIssue_called (c : Cache) (now : Int) (transport : Nat → AttemptOutcome)
    (appID : String) :
    (getTokenIssue c now transport appID).endpointCalled = true := by
  unfold getTokenIssue
  cases (sendLarkAPIRequest transport 3).result with
  | error e => rfl
  | ok resp =>
    cases hp : parseAppTokenResp resp.body with
    | error e => simp [hp]
    | ok rs =>
      by_cases hc : rs.code ≠ 0 <;> simp [hp, hc]

theorem getToken_of_miss (c : Cache) (now : Int) (transport : Nat → AttemptOutcome)
    (appID : String) (hmiss : loadItem c (tokenCacheKey appID) = none) :
    getToken c now transport appID = getTokenIssue c now transport appID := by
  simp [getToken, getString, hmiss]

theorem getTokenIssue_success (c : Cache) (now : Int) (transport : Nat → AttemptOutcome)
    (appID msg tok : String) (expire : Int) (resp : Response)
    (hT : (sendLarkAPIRequest transport 3).result = .ok resp)
    (hbody : resp.body = .fields 0 msg tok expire) :
    getTokenIssue c now transport appID =
      ⟨.ok tok, setString c now (tokenCacheKey appID) tok (expire - 100), true⟩ := by
  unfold getTokenIssue
  rw [hT]
  simp [hbody, parseAppTokenResp]

theorem getToken_hit (c : Cache) (now : Int) (transport : Nat → AttemptOutcome)
    (appID tok : String)
    (h : (getString c now (tokenCacheKey appID)).1 = .ok tok) (htok : tok ≠ "") :
    getToken c now transport appID =
      ⟨.ok tok, (getString c now (tokenCacheKey appID)).2, false⟩ := by
  unfold getToken
  simp [h, htok]

theorem getToken_err (c : Cache) (now : Int) (transport : Nat → AttemptOutcome)
    (appID : String) (err : CacheErr)
    (h : (getString c now (tokenCacheKey appID)).1 = .error err) :
    getToken c now transport appID =
      getTokenIssue (getString c now (tokenCacheKey appID)).2 now transport appID := by
  unfold getToken
  simp [h]

/-- C4 (amended): on a cold cache, an issuance answered with code 0, a
non-empty token and `expire = 300` caches the token with TTL
`300 - 100 = 200` seconds; a second resolve within 200 seconds returns
the cached token without touching the issuance endpoint; a resolve
strictly after 200 seconds goes back to the endpoint; an issuance
answered with a non-zero code fails with the platform message and leaves
the cache unchanged. -/
theorem getToken_caching (c : Cache) (t0 : Int) (transport : Nat → AttemptOutcome)
    (appID msg tok : String) (resp : Response)
    (hmiss : loadItem c (tokenCacheKey appID) = none)
    (ht0 : 0 ≤ t0)
    (hT : (sendLarkAPIRequest transport 3).result = .ok resp)
    (hbody : resp.body = .fields 0 msg tok 300)
    (htok : tok ≠ "") :
    (getToken c t0 transport appID).result = .ok tok ∧
    (getToken c t0 transport appID).endpointCalled = true ∧
    (getToken c t0 transport appID).cache =
      setString c t0 (tokenCacheKey appID) tok (300 - 100) ∧
    (∀ (t1 : Int) (transport2 : Nat → AttemptOutcome),
      t1 ≤ t0 + 200 * nanosPerSecond →
      (getToken (getToken c t0 transport appID).cache t1 transport2 appID).result =
        .ok tok ∧
      (getToken (getToken c t0 transport appID).cache t1 transport2 appID).endpointCalled =
        false) ∧
    (∀ (t2 : Int) (transport3 : Nat → AttemptOutcome),
      t0 + 200 * nanosPerSecond < t2 →
      (getToken (getToken c t0 transport appID).cache t2 transport3 appID).endpointCalled =
        true) ∧
    ∀ (c' : Cache) (now : Int) (transportE : Nat → AttemptOutcome) (respE : Response)
      (codeE : Int) (msgE tokE : String) (expE : Int),
      loadItem c' (tokenCacheKey appID) = none →
      (sendLarkAPIRequest transportE 3).result = .ok respE →
      respE.body = .fields codeE msgE tokE expE →
      codeE ≠ 0 →
      (getToken c' now transportE appID).result =
        .error ("failed to obtain Lark App Token: " ++ msgE) ∧
      (getToken c' now transportE appID).cache = c' := by
  have h1 : getToken c t0 transport appID =
      ⟨.ok tok, setString c t0 (tokenCacheKey appID) tok (300 - 100), true⟩ := by
    rw [getToken_of_miss c t0 transport appID hmiss]
    exact getTokenIssue_success c t0 transport appID msg tok 300 resp hT hbody
  have hexp : (0 : Int) < t0 + 200 * nanosPerSecond := by
    simp only [nanosPerSecond]; omega
  have hload : loadItem (getToken c t0 transport appID).cache (tokenCacheKey appID) =
      some ⟨tok, t0 + 200 * nanosPerSecond⟩ := by
    rw [h1]
    show loadItem (setString c t0 (tokenCacheKey appID) tok 200) (tokenCacheKey appID) =
      some ⟨tok, t0 + 200 * nanosPerSecond⟩
    simp only [setString]
    rw [if_pos (by omega : (0 : Int) < 200)]
    exact loadItem_store ..
  refine ⟨by rw [h1], by rw [h1], by rw [h1], ?_, ?_, ?_⟩
  · intro t1 transport2 ht1
    have hget : (getString (getToken c t0 transport appID).cache t1 (tokenCacheKey appID)).1 =
        .ok tok := by
      simp only [getString, hload]
      rw [if_neg (by push_neg; intro _; omega)]
    rw [getToken_hit (getToken c t0 transport appID).cache t1 transport2 appID tok hget htok]
    exact ⟨rfl, rfl⟩
  · intro t2 transport3 ht2
    have hget : (getString (getToken c t0 transport appID).cache t2 (tokenCacheKey appID)).1 =
        .error .keyExpired := by
      simp only [getString, hload]
      rw [if_pos ⟨by omega, ht2⟩]
    rw [getToken_err (getToken c t0 transport appID).cache t2 transport3 appID _ hget]
    exact getTokenIssue_called ..
  · intro c' now transportE respE codeE msgE tokE expE hmiss' hTE hbodyE hcode
    have h2 : getToken c' now transportE appID = getTokenIssue c' now transportE appID :=
      getToken_of_miss c' now transportE appID hmiss'
    rw [h2]
    unfold getTokenIssue
    rw [hTE]
    simp [hbodyE, parseAppTokenResp, hcode]

/-- Witness for `getToken_caching`: a concrete cold-cache issuance with
`expire = 300` followed by a cache-hit resolve one second later. -/
theorem getToken_caching_witness :
    (getToken [] 0 (fun _ => .resp ⟨200, .fields 0 "ok" "tok123" 300, []⟩) "app").result =
      .ok "tok123" ∧
    (getToken
      (getToken [] 0 (fun _ => .resp ⟨200, .fields 0 "ok" "tok123" 300, []⟩) "app").cache
      nanosPerSecond (fun _ => .fail "down") "app").endpointCalled = false := by
  have h := getToken_caching [] 0 (fun _ => .resp ⟨200, .fields 0 "ok" "tok123" 300, []⟩)
    "app" "ok" "tok123" ⟨200, .fields 0 "ok" "tok123" 300, []⟩
    rfl (by decide) rfl rfl (by decide)
  exact ⟨h.1,
    (h.2.2.2.1 nanosPerSecond (fun _ => .fail "down") (by norm_num [nanosPerSecond])).2⟩

/-- C4 (counterexample): an issuance that succeeds (code 0,
`expire = 300`) with the empty string as token is cached, but a resolve
one second later — well inside the claimed 200-second window — calls the
issuance endpoint again, because the cache-hit path of `getToken`
requires a non-empty cached value. -/
theorem getToken_empty_token_cex :
    (getToken [] 0 (fun _ => .resp ⟨200, .fields 0 "ok" "" 300, []⟩) "app").result =
      .ok "" ∧
    (getToken (getToken [] 0 (fun _ => .resp ⟨200, .fields 0 "ok" "" 300, []⟩) "app").cache
      nanosPerSecond (fun _ => .resp ⟨200, .fields 0 "ok" "" 300, []⟩)
      "app").endpointCalled = true := by
  constructor <;> rfl

/-- C10 (amended): a successful issuance of a non-empty token with
`expire ≤ 100` computes a non-positive TTL, so the token is cached as a
never-expiring entry and every later resolve returns it from the cache
without re-issuance. -/
theorem getToken_never_expiring (c : Cache) (t0 : Int) (transport : Nat → AttemptOutcome)
    (appID msg tok : String) (expire : Int) (resp : Response)
    (hmiss : loadItem c (tokenCacheKey appID) = none)
    (hT : (sendLarkAPIRequest transport 3).result = .ok resp)
    (hbody : resp.body = .fields 0 msg tok expire)
    (hexp : expire ≤ 100)
    (htok : tok ≠ "") :
    (getToken c t0 transport appID).result = .ok tok ∧
    loadItem (getToken c t0 transport appID).cache (tokenCacheKey appID) =
      some ⟨tok, 0⟩ ∧
    ∀ (t : Int) (transport2 : Nat → AttemptOutcome),
      getToken (getToken c t0 transport appID).cache t transport2 appID =
        ⟨.ok tok, (getToken c t0 transport appID).cache, false⟩ := by
  have h1 : getToken c t0 transport appID =
      ⟨.ok tok, setString c t0 (tokenCacheKey appID) tok (expire - 100), true⟩ := by
    rw [getToken_of_miss c t0 transport appID hmiss]
    exact getTokenIssue_success c t0 transport appID msg tok expire resp hT hbody
  have hload : loadItem (getToken c t0 transport appID).cache (tokenCacheKey appID) =
      some ⟨tok, 0⟩ := by
    rw [h1]
    simp only [setString]
    rw [if_neg (by omega)]
    exact loadItem_store ..
  refine ⟨by rw [h1], hload, ?_⟩
  intro t transport2
  have hget : (getString (getToken c t0 transport appID).cache t (tokenCacheKey appID)).1 =
      .ok tok := by
    simp only [getString, hload]
    rw [if_neg (by simp)]
  have hc2 : (getString (getToken c t0 transport appID).cache t (tokenCacheKey appID)).2 =
      (getToken c t0 transport appID).cache := by
    simp only [getString, hload]
    rw [if_neg (by simp)]
  rw [getToken_hit (getToken c t0 transport appID).cache t transport2 appID tok hget htok,
    hc2]

/-- Witness for `getToken_never_expiring`: an issuance with `expire = 50`
and a resolve at an arbitrary much later instant. -/
theorem getToken_never_expiring_witness :
    (getToken [] 0 (fun _ => .resp ⟨200, .fields 0 "ok" "tok9" 50, []⟩) "app").result =
      .ok "tok9" ∧
    getToken
      (getToken [] 0 (fun _ => .resp ⟨200, .fields 0 "ok" "tok9" 50, []⟩) "app").cache
      999999999999 (fun _ => .fail "down") "app" =
      ⟨.ok "tok9",
        (getToken [] 0 (fun _ => .resp ⟨200, .fields 0 "ok" "tok9" 50, []⟩) "app").cache,
        false⟩ := by
  have h := getToken_never_expiring [] 0
    (fun _ => .resp ⟨200, .fields 0 "ok" "tok9" 50, []⟩) "app" "ok" "tok9" 50
    ⟨200, .fields 0 "ok" "tok9" 50, []⟩ rfl rfl rfl (by decide) (by decide)
  exact ⟨h.1, h.2.2 999999999999 (fun _ => .fail "down")⟩

/-- C10 (counterexample): a successful issuance (code 0) with
`expire = 50` and the empty token: the cache does store a never-expiring
entry, but a later resolve does not return it — the empty cached value
fails the non-empty check and re-issuance occurs. -/
theorem getToken_nonpositive_ttl_cex :
    loadItem (getToken [] 0 (fun _ => .resp ⟨200, .fields 0 "ok" "" 50, []⟩) "app").cache
      (tokenCacheKey "app") = some ⟨"", 0⟩ ∧
    (getToken (getToken [] 0 (fun _ => .resp ⟨200, .fields 0 "ok" "" 50, []⟩) "app").cache
      7 (fun _ => .resp ⟨200, .fields 0 "ok" "" 50, []⟩) "app").endpointCalled = true := by
  constructor <;> rfl

/-! ## Lemmas about the card generator and SubmitMessage -/

theorem digitChar_mod_isDigit (n : Nat) : (Nat.digitChar (n % 10)).isDigit = true := by
  have h : n % 10 < 10 := Nat.mod_lt _ (by norm_num)
  generalize n % 10 = k at h
  interval_cases k <;> rfl

theorem pad2_digits (n : Nat) : ∀ c ∈ (pad2 n).data, c.isDigit = true := by
  intro c hc
  have hd : (pad2 n).data = [Nat.digitChar (n / 10 % 10), Nat.digitChar (n % 10)] := rfl
  rw [hd] at hc
  simp only [List.mem_cons, List.not_mem_nil, or_false] at hc
  rcases hc with h | h <;> subst h
  · exact digitChar_mod_isDigit (n / 10)
  · exact digitChar_mod_isDigit n

theorem pad4_digits (n : Nat) : ∀ c ∈ (pad4 n).data, c.isDigit = true := by
  intro c hc
  have hd : (pad4 n).data = [Nat.digitChar (n / 1000 % 10), Nat.digitChar (n / 100 % 10),
      Nat.digitChar (n / 10 % 10), Nat.digitChar (n % 10)] := rfl
  rw [hd] at hc
  simp only [List.mem_cons, List.not_mem_nil, or_false] at hc
  rcases hc with h | h | h | h <;> subst h
  · exact digitChar_mod_isDigit (n / 1000)
  · exact digitChar_mod_isDigit (n / 100)
  · exact digitChar_mod_isDigit (n / 10)
  · exact digitChar_mod_isDigit n

/-- The render-time timestamp always has the `YYYY-MM-DD HH:MM:SS`
shape. -/
theorem formatDateTime_shape (t : GoTime) : TimestampShape (formatDateTime t) := by
  refine ⟨pad4 t.year, pad2 t.month, pad2 t.day, pad2 t.hour, pad2 t.minute, pad2 t.second,
    rfl, rfl, rfl, rfl, rfl, rfl, rfl, ?_⟩
  intro c hc
  simp only [String.data_append, List.mem_append] at hc
  rcases hc with ((((h | h) | h) | h) | h) | h
  · exact pad4_digits t.year c h
  · exact pad2_digits t.month c h
  · exact pad2_digits t.day c h
  · exact pad2_digits t.hour c h
  · exact pad2_digits t.minute c h
  · exact pad2_digits t.second c h

/-- C1 (counterexample): a message qualifying for card generation
(non-empty level and title, empty message type) whose content is not a
string is enqueued completely unchanged — its type is not rewritten to
"interactive" and its content is not replaced by a card. -/
theorem submitMessage_nonstring_cex :
    shouldGenerateCardMsg ⟨"m1", "", "", "", "info", "Title", .intVal 7⟩ = true ∧
    (submitMessage "gen" ⟨2024, 5, 6, 7, 8, 9⟩
      ⟨"m1", "", "", "", "info", "Title", .intVal 7⟩).enqueued =
      some ⟨"m1", "", "", "", "info", "Title", .intVal 7⟩ := by
  constructor <;> rfl

/-- C1 (amended): for every qualifying message (empty-or-"text" type,
non-empty level and title) whose content payload is a string that renders
cleanly, `SubmitMessage` rewrites the type to "interactive" and replaces
the content with the rendered card carrying the original content, the
title, the color resolved from the level, and a render-time timestamp of
shape `YYYY-MM-DD HH:MM:SS`. -/
theorem submitMessage_card_rewrite (genID : String) (now : GoTime) (m : Message)
    (s : String)
    (hq : shouldGenerateCardMsg m = true)
    (hc : m.content = .str s)
    (hs : jsonStringSafe s = true)
    (ht : jsonStringSafe m.title = true) :
    ∃ mq : Message,
      (submitMessage genID now m).err = none ∧
      (submitMessage genID now m).enqueued = some mq ∧
      mq.msgType = "interactive" ∧
      mq.title = m.title ∧
      mq.msgLevel = m.msgLevel ∧
      mq.content = .card ⟨s, formatDateTime now, m.title, resolveLevelColor m.msgLevel⟩ ∧
      TimestampShape (formatDateTime now) := by
  have hfields : (if m.id == "" then { m with id := genID } else m).msgType = m.msgType ∧
      (if m.id == "" then { m with id := genID } else m).msgLevel = m.msgLevel ∧
      (if m.id == "" then { m with id := genID } else m).title = m.title ∧
      (if m.id == "" then { m with id := genID } else m).content = m.content := by
    cases h : m.id == "" <;> simp [h]
  set mi := if m.id == "" then { m with id := genID } else m with hmi
  obtain ⟨hT, hL, hTi, hC⟩ := hfields
  have hq' : shouldGenerateCardMsg mi = true := by
    unfold shouldGenerateCardMsg at hq ⊢
    rw [hL, hTi, hT]
    exact hq
  have hC' : mi.content = .str s := by rw [hC]; exact hc
  have hgen : generateTextCardMsgWithLevel mi.msgLevel mi.title s now =
      .ok ⟨s, formatDateTime now, mi.title, resolveLevelColor mi.msgLevel⟩ := by
    unfold generateTextCardMsgWithLevel
    rw [hTi, hs, ht]
    rfl
  have hsub : submitMessage genID now m =
      ⟨mi.id, none, some { mi with
        msgType := "interactive",
        content := .card ⟨s, formatDateTime now, mi.title, resolveLevelColor mi.msgLevel⟩ }⟩ := by
    unfold submitMessage
    simp only [← hmi, hq', hC', hgen, eq_self_iff_true, if_true, ite_true]
  refine ⟨{ mi with
      msgType := "interactive",
      content := .card ⟨s, formatDateTime now, mi.title, resolveLevelColor mi.msgLevel⟩ },
    ?_, ?_, rfl, hTi, hL, ?_, formatDateTime_shape now⟩
  · rw [hsub]
  · rw [hsub]
  · show MsgContent.card ⟨s, formatDateTime now, mi.title, resolveLevelColor mi.msgLevel⟩ =
      .card ⟨s, formatDateTime now, m.title, resolveLevelColor m.msgLevel⟩
    rw [hTi, hL]

/-- Witness for `submitMessage_card_rewrite` on a concrete "error"-level
text message. -/
theorem submitMessage_card_rewrite_witness :
    ∃ mq : Message,
      (submitMessage "g1" ⟨2025, 3, 4, 5, 6, 7⟩
        ⟨"", "", "", "text", "error", "Alert", .str "hello"⟩).err = none ∧
      (submitMessage "g1" ⟨2025, 3, 4, 5, 6, 7⟩
        ⟨"", "", "", "text", "error", "Alert", .str "hello"⟩).enqueued = some mq ∧
      mq.msgType = "interactive" ∧
      mq.title = "Alert" ∧
      mq.msgLevel = "error" ∧
      mq.content = .card ⟨"hello", formatDateTime ⟨2025, 3, 4, 5, 6, 7⟩,
        "Alert", resolveLevelColor "error"⟩ ∧
      TimestampShape (formatDateTime ⟨2025, 3, 4, 5, 6, 7⟩) :=
  submitMessage_card_rewrite "g1" ⟨2025, 3, 4, 5, 6, 7⟩
    ⟨"", "", "", "text", "error", "Alert", .str "hello"⟩ "hello"
    (by decide) rfl (by decide) (by decide)

/-! ## Witnesses for the retry-loop theorems -/

/-- Witness for `sendLarkAPIRequest_always429` on a transport answering a
bare 429 every time. -/
theorem sendLarkAPIRequest_always429_witness :
    (sendLarkAPIRequest (fun _ => .resp ⟨429, .malformed, []⟩) 3).attempts = 4 ∧
    (sendLarkAPIRequest (fun _ => .resp ⟨429, .malformed, []⟩) 3).result =
      .error (.rateLimitExceeded 3) := by
  have h := sendLarkAPIRequest_always429 (fun _ => .resp ⟨429, .malformed, []⟩)
    (fun _ => rfl)
  exact ⟨h.1, h.2.1⟩

/-- Witness for `sendLarkAPIRequest_sleep_durations` with the reset
header carrying `"5"`. -/
theorem sendLarkAPIRequest_sleep_durations_witness :
    (sendLarkAPIRequest
      (fun _ => .resp ⟨429, .malformed, [("x-ogw-ratelimit-reset", ["5"])]⟩) 3).sleeps =
      List.replicate 3 5 ∧
    extractResetTime ["5"] = 5 ∧
    extractResetTime [] = 60 ∧
    extractResetTime ["not-a-number"] = 60 ∧
    extractResetTime [""] = 60 := by
  have h := sendLarkAPIRequest_sleep_durations
    (fun _ => .resp ⟨429, .malformed, [("x-ogw-ratelimit-reset", ["5"])]⟩)
    ⟨429, .malformed, [("x-ogw-ratelimit-reset", ["5"])]⟩ (fun _ => rfl) rfl
  refine ⟨?_, h.2.1, h.2.2.1, h.2.2.2.1, h.2.2.2.2.1⟩
  rw [h.1]
  decide

/-- Witness for `sendLarkAPIRequest_transport_failure`: one 429 attempt,
then a connection failure, with 5 retries still allowed. -/
theorem sendLarkAPIRequest_transport_failure_witness :
    (sendLarkAPIRequest
      (fun k => if k = 0 then .resp ⟨429, .malformed, []⟩ else .fail "conn refused")
      5).result = .error (.transport "conn refused") ∧
    (sendLarkAPIRequest
      (fun k => if k = 0 then .resp ⟨429, .malformed, []⟩ else .fail "conn refused")
      5).attempts = 2 ∧
    (sendLarkAPIRequest
      (fun k => if k = 0 then .resp ⟨429, .malformed, []⟩ else .fail "conn refused")
      5).sleeps.length = 1 :=
  sendLarkAPIRequest_transport_failure
    (fun k => if k = 0 then .resp ⟨429, .malformed, []⟩ else .fail "conn refused")
    5 "conn refused" 1
    (by intro j hj; obtain rfl := Nat.lt_one_iff.mp hj; rfl)
    rfl (by decide)

/-! ## Theorems about configuration validation and construction -/

theorem validateConfig_ok (g : Nat) (cfg cfg' : Config)
    (h : validateConfig g cfg = .ok cfg') :
    cfg.defaultSendChannelName ≠ "" ∧
    (cfg.botWebhooks ≠ [] ∨ cfg.larks ≠ []) ∧
    cfg'.defaultSendChannelName = cfg.defaultSendChannelName ∧
    cfg'.botWebhooks = cfg.botWebhooks ∧
    cfg'.larks = cfg.larks := by
  unfold validateConfig at h
  split_ifs at h with h1 h2 h3
  all_goals first
    | exact Except.noConfusion h
    | (replace h := Except.ok.inj h
       subst h
       refine ⟨h2, ?_, rfl, rfl, rfl⟩
       rcases not_and_or.mp h1 with hw | hl
       · exact Or.inl fun he => hw (by rw [he]; rfl)
       · exact Or.inr fun he => hl (by rw [he]; rfl))

theorem new_ok_inv (g : Nat) (cfg : Config) (st : NotifyState)
    (h : new g cfg = .ok st) :
    ∃ cfg' apps, validateConfig g cfg = .ok cfg' ∧ initApps cfg'.larks = .ok apps ∧
      st = ⟨cfg'.defaultSendChannelName, cfg'.botWebhooks, apps⟩ := by
  unfold new at h
  cases hv : validateConfig g cfg with
  | error e => rw [hv] at h; exact Except.noConfusion h
  | ok cfg' =>
    rw [hv] at h
    have h2 : Except.bind (initApps cfg'.larks)
        (fun apps => Except.ok
          (⟨cfg'.defaultSendChannelName, cfg'.botWebhooks, apps⟩ : NotifyState)) =
        .ok st := h
    cases ha : initApps cfg'.larks with
    | error e => rw [ha] at h2; exact Except.noConfusion h2
    | ok apps =>
      rw [ha] at h2
      exact ⟨cfg', apps, rfl, ha, (Except.ok.inj h2).symm⟩

/-- C3 (counterexample): `New` accepts a configuration whose non-empty
default send-channel name `"nope"` resolves to no configured webhook and
no configured app — construction succeeds instead of failing with a
configuration error. -/
theorem new_unresolved_default_cex :
    new 4 ⟨true, "nope", 1, 1, [("ops", "http://w.example")], []⟩ =
      .ok ⟨"nope", [("ops", "http://w.example")], []⟩ ∧
    lookup [("ops", "http://w.example")] "nope" = (none : Option String) := by
  constructor <;> rfl

/-- C3 (amended): `New` rejects a configuration with no target or with an
empty default channel name, but does not check that the default name
resolves to a target; on an accepted configuration whose default resolves
to nothing, the failure only surfaces at dispatch time as the
channel-not-found error. -/
theorem new_accepts_unresolved_default (g : Nat) (cfg : Config) (st : NotifyState)
    (h : new g cfg = .ok st) :
    st.defaultSendChannelName = cfg.defaultSendChannelName ∧
    cfg.defaultSendChannelName ≠ "" ∧
    (cfg.botWebhooks ≠ [] ∨ cfg.larks ≠ []) ∧
    ∀ (c : Cache) (now : Int) (tokTransport sendTransport : Nat → AttemptOutcome)
      (m : Message),
      m.sendChannelName = "" →
      lookup st.botWebhooks st.defaultSendChannelName = none →
      lookup st.apps st.defaultSendChannelName = none →
      (sendMsg st c now tokTransport sendTransport m).outcome =
        .error ("channel " ++ st.defaultSendChannelName ++ " is not found in lark") := by
  obtain ⟨cfg', apps, hv, ha, rfl⟩ := new_ok_inv g cfg st h
  obtain ⟨hd, hne, hdd, _, _⟩ := validateConfig_ok g cfg cfg' hv
  refine ⟨hdd, hd, hne, ?_⟩
  intro c now tokTransport sendTransport m hm hw hap
  have hch : resolveChannel ⟨cfg'.defaultSendChannelName, cfg'.botWebhooks, apps⟩ m =
      cfg'.defaultSendChannelName := by
    unfold resolveChannel
    rw [hm]
    rfl
  unfold sendMsg
  simp only [hch]
  simp only [NotifyState.botWebhooks, NotifyState.apps,
    NotifyState.defaultSendChannelName] at hw hap ⊢
  rw [hw, hap]

/-- Witness for `new_accepts_unresolved_default` on the concrete
configuration of `new_unresolved_default_cex`. -/
theorem new_accepts_unresolved_default_witness :
    ("nope" : String) ≠ "" ∧
    (sendMsg ⟨"nope", [("ops", "http://w.example")], []⟩ [] 0
      (fun _ => .fail "down") (fun _ => .fail "down")
      ⟨"", "", "", "text", "", "", .str "hi"⟩).outcome =
      .error ("channel " ++ "nope" ++ " is not found in lark") := by
  have h := new_accepts_unresolved_default 4
    ⟨true, "nope", 1, 1, [("ops", "http://w.example")], []⟩
    ⟨"nope", [("ops", "http://w.example")], []⟩ rfl
  exact ⟨h.2.1, h.2.2.2 [] 0 (fun _ => .fail "down") (fun _ => .fail "down")
    ⟨"", "", "", "text", "", "", .str "hi"⟩ rfl rfl rfl⟩

/-! ## Theorems about dispatch routing -/

/-- C7 (amended): a resolved channel matching neither table fails with
the channel-not-found error and makes no token resolution and no network
request; a resolved channel that matches an application target — and, the
webhook table being consulted first, no webhook target — with an empty
recipient fails with the missing-recipient error, again with no token
resolution and no network request. -/
theorem sendMsg_routing_errors (st : NotifyState) (c : Cache) (now : Int)
    (tokTransport sendTransport : Nat → AttemptOutcome) (m : Message)
    (hw : lookup st.botWebhooks (resolveChannel st m) = none) :
    (lookup st.apps (resolveChannel st m) = none →
      sendMsg st c now tokTransport sendTransport m =
        ⟨.error ("channel " ++ resolveChannel st m ++ " is not found in lark"),
          0, none, none⟩) ∧
    ∀ a, lookup st.apps (resolveChannel st m) = some a →
      m.sendTo = "" →
      sendMsg st c now tokTransport sendTransport m =
        ⟨.error ("sendTo is required for lark app " ++ resolveChannel st m),
          0, none, none⟩ := by
  constructor
  · intro hap
    unfold sendMsg
    simp only [hw, hap]
  · intro a hap hrecip
    unfold sendMsg
    simp only [hw, hap, hrecip]
    rfl

/-- Witness for `sendMsg_routing_errors`: one unknown channel, and one
app-only channel with an empty recipient. -/
theorem sendMsg_routing_errors_witness :
    sendMsg ⟨"d", [], [("app1", ⟨.custom (.ok "t"), "u"⟩)]⟩ [] 0
      (fun _ => .fail "down") (fun _ => .fail "down")
      ⟨"m1", "ghost", "", "text", "", "", .str "hi"⟩ =
      ⟨.error ("channel " ++ "ghost" ++ " is not found in lark"), 0, none, none⟩ ∧
    sendMsg ⟨"d", [], [("app1", ⟨.custom (.ok "t"), "u"⟩)]⟩ [] 0
      (fun _ => .fail "down") (fun _ => .fail "down")
      ⟨"m2", "app1", "", "text", "", "", .str "hi"⟩ =
      ⟨.error ("sendTo is required for lark app " ++ "app1"), 0, none, none⟩ := by
  constructor
  · exact (sendMsg_routing_errors ⟨"d", [], [("app1", ⟨.custom (.ok "t"), "u"⟩)]⟩ [] 0
      (fun _ => .fail "down") (fun _ => .fail "down")
      ⟨"m1", "ghost", "", "text", "", "", .str "hi"⟩ rfl).1 rfl
  · exact (sendMsg_routing_errors ⟨"d", [], [("app1", ⟨.custom (.ok "t"), "u"⟩)]⟩ [] 0
      (fun _ => .fail "down") (fun _ => .fail "down")
      ⟨"m2", "app1", "", "text", "", "", .str "hi"⟩ rfl).2
      ⟨.custom (.ok "t"), "u"⟩ rfl rfl

/-- The notifier state `New` builds from a configuration in which the
name "ops" is configured both as a webhook and as a Lark app. -/
def stDup : NotifyState :=
  ⟨"ops", [("ops", "http://w.example")],
    [("ops", ⟨.custom (.ok "tok"), spliceStr [feishuHost, messageAPI]⟩)]⟩

/-- C7 (counterexample): `New` accepts a configuration in which the same
name "ops" is both a webhook and an application target; a message to
"ops" with an empty recipient then dispatches successfully through the
webhook (a network request is made) instead of failing with the
missing-recipient error. -/
theorem sendMsg_webhook_precedence_cex :
    new 4 ⟨true, "ops", 1, 1, [("ops", "http://w.example")],
        [("ops", ⟨"feishu", some (.ok "tok"), "", ""⟩)]⟩ = .ok stDup ∧
    (lookup stDup.apps "ops").isSome = true ∧
    (sendMsg stDup [] 0 (fun _ => .resp ⟨200, .fields 0 "" "" 0, []⟩)
      (fun _ => .resp ⟨200, .fields 0 "" "" 0, []⟩)
      ⟨"m1", "ops", "", "text", "", "", .str "hi"⟩).outcome = .ok () ∧
    ((sendMsg stDup [] 0 (fun _ => .resp ⟨200, .fields 0 "" "" 0, []⟩)
      (fun _ => .resp ⟨200, .fields 0 "" "" 0, []⟩)
      ⟨"m1", "ops", "", "text", "", "", .str "hi"⟩).webhookRequest).isSome = true := by
  refine ⟨rfl, rfl, rfl, rfl⟩

/-- C9: a webhook send of a message whose type is none of text, post,
share_chat, image or interactive is not rejected with an unsupported-type
error: the payload POSTed to the webhook carries only the `msg_type`
field (no content, no card), and success is decided solely by the
platform business code of the response. -/
theorem webhook_unknown_msgType_passthrough (transport : Nat → AttemptOutcome)
    (webhook : String) (m : Message) (resp : Response) (code : Int)
    (msg tok : String) (expire : Int)
    (hty : m.msgType ∉ (["text", "post", "share_chat", "image", "interactive"] : List String))
    (hT : (sendLarkAPIRequest transport 3).result = .ok resp)
    (hbody : resp.body = .fields code msg tok expire) :
    (sendBotWebhookMessage transport webhook m).request =
      some (webhook, ⟨m.msgType, none, none⟩) ∧
    ((sendBotWebhookMessage transport webhook m).outcome = .ok () ↔ code = 0) := by
  have hb : buildBotParams m = .ok ⟨m.msgType, none, none⟩ := by
    unfold buildBotParams
    split <;> simp_all
  have hs : sendBotWebhookMessage transport webhook m =
      if code ≠ 0 then
        ⟨some (webhook, ⟨m.msgType, none, none⟩),
          .error ("failed to send bot message: " ++ msg)⟩
      else ⟨some (webhook, ⟨m.msgType, none, none⟩), .ok ()⟩ := by
    unfold sendBotWebhookMessage
    rw [hb, hT]
    simp [hbody, parseMessageResp]
  by_cases hcode : code = 0
  · rw [hs, if_neg (by omega)]
    simp [hcode]
  · rw [hs, if_pos hcode]
    simp [hcode]

/-- Witness for `webhook_unknown_msgType_passthrough` on a `"video"`
message answered with business code 0. -/
theorem webhook_unknown_msgType_passthrough_witness :
    (sendBotWebhookMessage (fun _ => .resp ⟨200, .fields 0 "ok" "" 0, []⟩)
      "http://w.example" ⟨"m1", "", "", "video", "", "", .str "x"⟩).request =
      some ("http://w.example", ⟨"video", none, none⟩) ∧
    (sendBotWebhookMessage (fun _ => .resp ⟨200, .fields 0 "ok" "" 0, []⟩)
      "http://w.example" ⟨"m1", "", "", "video", "", "", .str "x"⟩).outcome = .ok () := by
  have h := webhook_unknown_msgType_passthrough
    (fun _ => .resp ⟨200, .fields 0 "ok" "" 0, []⟩) "http://w.example"
    ⟨"m1", "", "", "video", "", "", .str "x"⟩ ⟨200, .fields 0 "ok" "" 0, []⟩ 0 "ok" "" 0
    (by decide) rfl rfl
  exact ⟨h.1, h.2.mpr rfl⟩

end Notify
